import Mathlib

/-!
Verification development for the camera-streamer-esp32 repository.

The program acquires MJPEG frames from a USB camera through the esp UVC host
driver and fans them out to consumers over bounded FreeRTOS queues.  Two
variants of the UVC module exist in the tree: `src/main/app_uvc.c` (a single
subscriber queue drained by `frame_handling_task`, which invokes a registered
user callback) and the WiFi-streaming variant (two queues, `rx_frames_queue`
and `wifi_frame_queue`, drained by `frame_handling_task` and the HTTP
`stream_handler` respectively).

Below, FreeRTOS queues of frame pointers are modelled as bounded lists, frame
pointers as natural numbers, and each C function that the claims touch is
embedded as a Lean function over that state.
-/

/-- Model of a FreeRTOS queue created by `xQueueCreate(n, sizeof(ptr))`:
a capacity fixed at creation time and an ordered list of enqueued items. -/
structure BQueue (α : Type) where
  cap : Nat
  items : List α
deriving DecidableEq

/-- Model of `xQueueCreate(n, ...)`: an empty queue of capacity `n`. -/
def xQueueCreate (α : Type) (n : Nat) : BQueue α :=
  ⟨n, []⟩

/-- Model of `xQueueSendToBack(q, &x, 0)`: with zero ticks to wait the call
returns immediately; it appends `x` when a slot is free and otherwise fails
(`errQUEUE_FULL`), leaving the queue unchanged.  The `Bool` is `pdPASS`. -/
def xQueueSendToBack {α : Type} (q : BQueue α) (x : α) : BQueue α × Bool :=
  if q.items.length < q.cap then (⟨q.cap, q.items ++ [x]⟩, true) else (q, false)

/-- Model of `xQueueReceive`: pops the front item when one is present. -/
def xQueueReceive {α : Type} : BQueue α → BQueue α × Option α
  | ⟨c, []⟩ => (⟨c, []⟩, none)
  | ⟨c, x :: rest⟩ => (⟨c, rest⟩, some x)

/-- A queue operation performed by some task: a non-blocking push by the
producer callback, or a pop by a consumer. -/
inductive QOp (α : Type)
  | push (x : α)
  | pop
deriving DecidableEq

/-- Runs a sequence of queue operations, as the producer and consumer tasks
interleave pushes and pops on one subscriber queue. -/
def runOps {α : Type} (q : BQueue α) : List (QOp α) → BQueue α
  | [] => q
  | QOp.push x :: rest => runOps (xQueueSendToBack q x).1 rest
  | QOp.pop :: rest => runOps (xQueueReceive q).1 rest

/-- Embedding of `frame_callback` from `src/main/app_uvc.c` (lines 55-69):
sends the frame pointer to `rx_frames_queue` with zero timeout and returns
`true` (release immediately) exactly when the send failed, `false` (the
consumer will call `uvc_host_frame_return` later) when it succeeded. -/
def frame_callback (q : BQueue Nat) (f : Nat) : BQueue Nat × Bool :=
  let r := xQueueSendToBack q f
  (r.1, !r.2)

/-- One drain iteration of `frame_handling_task` in `src/main/app_uvc.c`
(lines 139-147): receive a frame pointer, invoke the registered user callback
if any, then call `uvc_host_frame_return` exactly once.  The `Nat` counts the
`uvc_host_frame_return` calls the iteration performs. -/
def frame_handling_step (q : BQueue Nat) : BQueue Nat × Nat :=
  match xQueueReceive q with
  | (q2, some _) => (q2, 1)
  | (q2, none) => (q2, 0)

/-- Embedding of `frame_callback` from the WiFi-streaming variant
(`src/unnamed/part_001`, lines 297-310): the same frame pointer is sent to the
local `rx_frames_queue` and, when `wifi_frame_queue` is non-NULL, also to the
WiFi queue; the return value is `true` exactly when the local send failed,
ignoring the outcome of the WiFi send.  Result: (local queue, wifi queue,
returned boolean). -/
def frame_callback_wifi_variant (localQ wifiQ : BQueue Nat) (wifi_queue_set : Bool)
    (f : Nat) : BQueue Nat × BQueue Nat × Bool :=
  let r := xQueueSendToBack localQ f
  let w := if wifi_queue_set then xQueueSendToBack wifiQ f else (wifiQ, false)
  (r.1, w.1, !r.2)

/-- Per-frame body of `stream_handler` (`src/unnamed/part_001`, lines 47-72)
after a frame was dequeued, abstracted over the outcomes of the two
`httpd_send` calls: if the header send fails the loop breaks at once; if the
frame-data send fails the loop breaks; only when both succeed is the
separator sent and `uvc_host_frame_return` invoked.  Result: (whether the
frame was released, whether the session loop breaks). -/
def stream_handler_frame_step (headerOk dataOk : Bool) : Bool × Bool :=
  if !headerOk then (false, true)
  else if !dataOk then (false, true)
  else (true, false)

/-- Total number of `uvc_host_frame_return` calls eventually made for one
frame delivered by `frame_callback` of the WiFi variant, assuming both
consumers drain their queues.  The three summands come from, in order:
the Frame Source releasing immediately when the callback returns `true`;
`frame_handling_task` (`src/unnamed/part_001`, line 382) releasing every
frame it dequeues; `stream_handler` (line 71) releasing after its sends
succeed. -/
def releases_for_frame (localQ wifiQ : BQueue Nat) (f : Nat)
    (headerOk dataOk : Bool) : Nat :=
  let r := xQueueSendToBack localQ f
  let w := xQueueSendToBack wifiQ f
  (if !r.2 then 1 else 0)
    + (if r.2 then 1 else 0)
    + (if w.2 && (stream_handler_frame_step headerOk dataOk).1 then 1 else 0)

/-- Model of `esp_err_t` values returned by the embedded functions. -/
inductive EspErr
  | espOk
  | espErrInvalidArg
deriving DecidableEq

/-- The two static registration variables of `src/main/app_uvc.c` (lines
27-28): `g_user_frame_callback` (a nullable function pointer, modelled as an
identifier) and `g_user_callback_ctx` (a nullable `void *`). -/
structure CallbackState where
  g_user_frame_callback : Option Nat
  g_user_callback_ctx : Option Nat
deriving DecidableEq

/-- Embedding of `app_uvc_register_frame_callback` (`src/main/app_uvc.c`,
lines 190-202): a NULL callback is rejected with `ESP_ERR_INVALID_ARG` before
any assignment; otherwise both statics are overwritten and `ESP_OK` returns. -/
def app_uvc_register_frame_callback (frame_cb user_ctx : Option Nat)
    (s : CallbackState) : EspErr × CallbackState :=
  match frame_cb with
  | none => (EspErr.espErrInvalidArg, s)
  | some cb => (EspErr.espOk, ⟨some cb, user_ctx⟩)

/-- The stream events delivered to `stream_callback`. -/
inductive UvcStreamEvent
  | transferError (errNo : Int)
  | deviceDisconnected
  | frameBufferOverflow
  | frameBufferUnderflow
deriving DecidableEq

/-- The connection state the event callback can touch: the `dev_connected`
flag and whether the stream handle is still open. -/
structure UvcConnState where
  dev_connected : Bool
  stream_open : Bool
deriving DecidableEq

/-- Embedding of `stream_callback` (`src/main/app_uvc.c`, lines 71-97, and
identically in `src/unnamed/part_001`): transfer errors and buffer
overflow/underflow only log; the disconnect event clears `dev_connected` and
closes the stream handle via `uvc_host_stream_close`. -/
def stream_callback : UvcStreamEvent → UvcConnState → UvcConnState
  | UvcStreamEvent.transferError _, s => s
  | UvcStreamEvent.deviceDisconnected, _ => ⟨false, false⟩
  | UvcStreamEvent.frameBufferOverflow, s => s
  | UvcStreamEvent.frameBufferUnderflow, s => s

/-- Observable actions of the discovery part of `frame_handling_task`. -/
inductive SearchEv
  | openAttempt
  | delayMs (ms : Nat)
  | setConnected (b : Bool)
  | streamStart
deriving DecidableEq

/-- Trace of the discovery loop of `frame_handling_task`
(`src/main/app_uvc.c`, lines 122-136), driven by the outcome of each
`uvc_host_stream_open` call (one list entry per attempt, `true` on `ESP_OK`):
after a failed open the task sleeps `vTaskDelay(pdMS_TO_TICKS(5000))` and
retries; after a successful open it sets `dev_connected = true`, sleeps
100 ms and issues `uvc_host_stream_start`, entering the streaming loop.  The
trace is cut at the first success, where the claim about discovery ends. -/
def frame_handling_search : List Bool → List SearchEv
  | [] => []
  | ok :: rest =>
    if ok then
      [SearchEv.openAttempt, SearchEv.setConnected true, SearchEv.delayMs 100,
        SearchEv.streamStart]
    else
      SearchEv.openAttempt :: SearchEv.delayMs 5000 :: frame_handling_search rest

/-- Accumulates, after an open attempt has been seen, the total sleep time
until each following attempt: every `openAttempt` emits the accumulated delay
and resets it. -/
def gapsFrom : List SearchEv → Nat → List Nat
  | [], _ => []
  | SearchEv.openAttempt :: rest, acc => acc :: gapsFrom rest 0
  | SearchEv.delayMs d :: rest, acc => gapsFrom rest (acc + d)
  | SearchEv.setConnected _ :: rest, acc => gapsFrom rest acc
  | SearchEv.streamStart :: rest, acc => gapsFrom rest acc

/-- The sleep time separating each pair of consecutive open attempts in a
trace. -/
def attemptGaps : List SearchEv → List Nat
  | [] => []
  | SearchEv.openAttempt :: rest => gapsFrom rest 0
  | _ :: rest => attemptGaps rest

/-- ASCII bytes of a Lean string, for comparing emitted HTTP bytes. -/
def strBytes (s : String) : List Nat :=
  s.data.map Char.toNat

/-- The string `snprintf` formats in `stream_handler`
(`src/unnamed/part_001`, lines 49-53): the multipart boundary line, the
content-type line, the content-length line carrying the frame's byte length
in decimal, and the blank line. -/
def mjpeg_part_header_string (L : Nat) : String :=
  "--frame\r\nContent-Type: image/jpeg\r\nContent-Length: " ++ Nat.repr L ++ "\r\n\r\n"

/-- Model of `snprintf(frame_header, 128, ..., frame->data_len)`: the buffer
retains at most 127 characters (one byte is reserved for the terminator) and
the returned `header_len` is the full formatted length. -/
def snprintf_frame_header (L : Nat) : List Char × Nat :=
  ((mjpeg_part_header_string L).data.take 127, (mjpeg_part_header_string L).data.length)

/-- Bytes `stream_handler` (`src/unnamed/part_001`, lines 47-68) writes for
one dequeued frame when all sends succeed: `header_len` bytes of the
formatted header buffer, then the raw frame bytes, then the `"\r\n"`
separator. -/
def stream_handler_frame_bytes (data : List Nat) : List Nat :=
  let r := snprintf_frame_header data.length
  (r.1.take r.2).map Char.toNat ++ data ++ [13, 10]

/-- Modelled from the spec (§4.4 / §8 MJPEG framing): for a frame of length
L the emitted bytes are exactly
`--frame\r\nContent-Type: image/jpeg\r\nContent-Length: L\r\n\r\n`, the L
frame bytes, and `\r\n`.  Kept separate from the code-derived
`stream_handler_frame_bytes` for the refinement comparison. -/
def spec_mjpeg_part_bytes (data : List Nat) : List Nat :=
  strBytes ("--frame\r\nContent-Type: image/jpeg\r\nContent-Length: "
      ++ Nat.repr data.length ++ "\r\n\r\n")
    ++ data ++ strBytes "\r\n"

/-! ### Helper lemmas -/

/-- Any interleaving of pushes and pops preserves a queue's capacity and the
length-within-capacity invariant. -/
theorem runOps_invariant (ops : List (QOp Nat)) (q : BQueue Nat)
    (h : q.items.length ≤ q.cap) :
    (runOps q ops).cap = q.cap ∧ (runOps q ops).items.length ≤ q.cap := by
  induction ops generalizing q with
  | nil => exact ⟨rfl, h⟩
  | cons op rest ih =>
    cases op with
    | push x =>
      by_cases hlt : q.items.length < q.cap
      · have hstep := ih ⟨q.cap, q.items ++ [x]⟩ (by simpa using hlt)
        simpa [runOps, xQueueSendToBack, hlt] using hstep
      · have hstep := ih q h
        simpa [runOps, xQueueSendToBack, hlt] using hstep
    | pop =>
      rcases q with ⟨c, its⟩
      cases its with
      | nil =>
        have hstep := ih ⟨c, []⟩ h
        simpa [runOps, xQueueReceive] using hstep
      | cons a tl =>
        have htl : (BQueue.items ⟨c, tl⟩ : List Nat).length ≤ c := by
          simp at h ⊢; omega
        have hstep := ih ⟨c, tl⟩ htl
        simpa [runOps, xQueueReceive] using hstep

/-- Every gap recorded by `gapsFrom` over a discovery trace is either the
initial accumulator or the 5000 ms backoff sleep. -/
theorem gapsFrom_search (res : List Bool) :
    ∀ acc g, g ∈ gapsFrom (frame_handling_search res) acc → g = acc ∨ g = 5000 := by
  induction res with
  | nil =>
    intro acc g hg
    simp [frame_handling_search, gapsFrom] at hg
  | cons ok rest ih =>
    intro acc g hg
    cases ok with
    | true =>
      simp [frame_handling_search, gapsFrom] at hg
      exact Or.inl hg
    | false =>
      simp only [frame_handling_search, Bool.false_eq_true, if_false, gapsFrom,
        Nat.zero_add, List.mem_cons] at hg
      rcases hg with hg | hg
      · exact Or.inl hg
      · rcases ih 5000 g hg with h5 | h5 <;> exact Or.inr h5

/-- Once some open attempt succeeds, the discovery trace ends by setting the
connected flag and issuing stream-start. -/
theorem search_suffix (res : List Bool) (h : true ∈ res) :
    List.IsSuffix [SearchEv.setConnected true, SearchEv.delayMs 100, SearchEv.streamStart]
      (frame_handling_search res) := by
  induction res with
  | nil => cases h
  | cons ok rest ih =>
    cases ok with
    | true => exact ⟨[SearchEv.openAttempt], rfl⟩
    | false =>
      have h' : true ∈ rest := by simpa using h
      have hsuf : List.IsSuffix (frame_handling_search rest)
          (frame_handling_search (false :: rest)) :=
        ⟨[SearchEv.openAttempt, SearchEv.delayMs 5000], rfl⟩
      exact (ih h').trans hsuf

/-- The formatted MJPEG part header always fits the 128-byte `snprintf`
buffer for frame lengths below 2^31 (`data_len` is a 32-bit value printed
with `%d`). -/
theorem mjpeg_header_fits (L : Nat) (h : L < 2 ^ 31) :
    (mjpeg_part_header_string L).data.length ≤ 127 := by
  have hr : (Nat.repr L).length ≤ 10 :=
    Nat.repr_length L 10 (by norm_num) (lt_trans h (by norm_num))
  have hd : (Nat.repr L).data.length ≤ 10 := hr
  have h1 : "--frame\r\nContent-Type: image/jpeg\r\nContent-Length: ".data.length = 51 := by
    decide
  have h2 : "\r\n\r\n".data.length = 4 := by decide
  unfold mjpeg_part_header_string
  rw [String.data_append, String.data_append]
  simp only [List.length_append, h1, h2]
  omega

/-! ### Claim theorems -/

/-- Claim C1: in the WiFi-streaming variant the claim fails — for a frame the
Router accepts (callback returns `false`) with room in both queues, both the
local drain task and the HTTP stream handler call `uvc_host_frame_return` on
the same frame, so the release operation runs twice, not exactly once. -/
theorem frame_released_twice :
    (frame_callback_wifi_variant (xQueueCreate Nat 3) (xQueueCreate Nat 3) true 7).2.2
        = false ∧
      releases_for_frame (xQueueCreate Nat 3) (xQueueCreate Nat 3) 7 true true = 2 := by
  decide

/-- Claim C2: for the frame callback of `src/main/app_uvc.c`, the returned
boolean is `true` exactly when the subscriber queue could not accept the
frame, and `false` exactly when the frame was appended to the queue — in
which case the draining task releases each dequeued frame exactly once. -/
theorem frame_callback_return_contract (q : BQueue Nat) (f : Nat) :
    ((frame_callback q f).2 = true ↔ ¬ q.items.length < q.cap) ∧
      ((frame_callback q f).2 = false ↔ (frame_callback q f).1.items = q.items ++ [f]) ∧
      (∀ q0 : BQueue Nat, (xQueueReceive q0).2.isSome = true →
        (frame_handling_step q0).2 = 1) := by
  refine ⟨?_, ?_, ?_⟩
  · by_cases hlt : q.items.length < q.cap <;>
      simp [frame_callback, xQueueSendToBack, hlt]
  · by_cases hlt : q.items.length < q.cap <;>
      simp [frame_callback, xQueueSendToBack, hlt]
  · intro q0 h0
    rcases q0 with ⟨c, its⟩
    cases its with
    | nil => simp [xQueueReceive] at h0
    | cons a tl => simp [frame_handling_step, xQueueReceive]

/-- Witness for C2 at a concrete queue: an empty queue of capacity 3 accepts
the frame (callback returns `false` and the frame is appended), and the drain
step on the resulting one-element queue performs exactly one release. -/
theorem frame_callback_return_contract_witness :
    ((frame_callback (xQueueCreate Nat 3) 5).2 = false ↔
        (frame_callback (xQueueCreate Nat 3) 5).1.items
          = (xQueueCreate Nat 3).items ++ [5]) ∧
      (frame_handling_step ⟨3, [5]⟩).2 = 1 :=
  ⟨(frame_callback_return_contract (xQueueCreate Nat 3) 5).2.1,
    (frame_callback_return_contract (xQueueCreate Nat 3) 5).2.2 ⟨3, [5]⟩ (by decide)⟩

/-- Claim C3: in the WiFi-streaming variant the claim fails — with the local
queue full and the WiFi queue free, the WiFi subscriber still receives the
reference and the local drop leaves its own queue unchanged, but the callback
returns `true`, telling the Frame Source to recycle the frame immediately
while the WiFi subscriber still holds the same pointer, so the other
subscriber's reference does not stay valid. -/
theorem stale_reference_on_local_queue_full :
    (frame_callback_wifi_variant ⟨3, [1, 2, 3]⟩ (xQueueCreate Nat 3) true 7).2.2
        = true ∧
      7 ∈ (frame_callback_wifi_variant ⟨3, [1, 2, 3]⟩ (xQueueCreate Nat 3) true 7).2.1.items ∧
      (frame_callback_wifi_variant ⟨3, [1, 2, 3]⟩ (xQueueCreate Nat 3) true 7).1
        = ⟨3, [1, 2, 3]⟩ := by
  decide

/-- Claim C4: starting from `xQueueCreate(3, ...)`, any interleaving of
producer pushes and consumer pops keeps the queue's length at most 3, and a
`xQueueSendToBack` with zero timeout on the full queue returns failure
immediately with the queue unchanged — the new frame is dropped, nothing
grows and no older entry is evicted. -/
theorem subscriber_queue_bounded (ops : List (QOp Nat)) (f : Nat) :
    (runOps (xQueueCreate Nat 3) ops).items.length ≤ 3 ∧
      ((runOps (xQueueCreate Nat 3) ops).items.length = 3 →
        xQueueSendToBack (runOps (xQueueCreate Nat 3) ops) f
          = (runOps (xQueueCreate Nat 3) ops, false)) := by
  have hinv := runOps_invariant ops (xQueueCreate Nat 3) (by simp [xQueueCreate])
  refine ⟨hinv.2, ?_⟩
  intro h3
  unfold xQueueSendToBack
  rw [h3, hinv.1]
  simp [xQueueCreate]

/-- Witness for C4: pushing three frames fills the queue to length 3 and a
fourth push is rejected with the queue unchanged. -/
theorem subscriber_queue_bounded_witness :
    (runOps (xQueueCreate Nat 3) [QOp.push 1, QOp.push 2, QOp.push 3]).items.length ≤ 3 ∧
      xQueueSendToBack (runOps (xQueueCreate Nat 3) [QOp.push 1, QOp.push 2, QOp.push 3]) 4
        = (runOps (xQueueCreate Nat 3) [QOp.push 1, QOp.push 2, QOp.push 3], false) :=
  ⟨(subscriber_queue_bounded [QOp.push 1, QOp.push 2, QOp.push 3] 4).1,
    (subscriber_queue_bounded [QOp.push 1, QOp.push 2, QOp.push 3] 4).2 (by decide)⟩

/-- Claim C5: in every discovery trace of `frame_handling_task`, consecutive
open attempts are separated by a sleep of at least 2000 ms and at most
5000 ms (the source sleeps exactly 5000 ms after each failure), and once an
open attempt succeeds the task sets the connected flag and issues
stream-start. -/
theorem discovery_backoff_and_connect (res : List Bool) :
    (∀ g ∈ attemptGaps (frame_handling_search res), 2000 ≤ g ∧ g ≤ 5000) ∧
      (true ∈ res →
        List.IsSuffix
          [SearchEv.setConnected true, SearchEv.delayMs 100, SearchEv.streamStart]
          (frame_handling_search res)) := by
  refine ⟨?_, search_suffix res⟩
  intro g hg
  cases res with
  | nil => simp [frame_handling_search, attemptGaps] at hg
  | cons ok rest =>
    cases ok with
    | true => simp [frame_handling_search, attemptGaps, gapsFrom] at hg
    | false =>
      simp only [frame_handling_search, Bool.false_eq_true, if_false, attemptGaps,
        gapsFrom, Nat.zero_add] at hg
      rcases gapsFrom_search rest 5000 g hg with h5 | h5 <;> omega

/-- Witness for C5: with one failed attempt followed by a success, the single
recorded gap is 5000 ms and the trace ends with connect and stream-start. -/
theorem discovery_backoff_and_connect_witness :
    (2000 ≤ 5000 ∧ 5000 ≤ 5000) ∧
      List.IsSuffix
        [SearchEv.setConnected true, SearchEv.delayMs 100, SearchEv.streamStart]
        (frame_handling_search [false, true]) :=
  ⟨(discovery_backoff_and_connect [false, true]).1 5000 (by decide),
    (discovery_backoff_and_connect [false, true]).2 (by decide)⟩

/-- Claim C6: `stream_callback` leaves the connection flag and the stream
handle untouched on every event other than device-disconnect, and on
device-disconnect it clears `dev_connected` and closes the stream handle. -/
theorem stream_event_state_effects (e : UvcStreamEvent) (s : UvcConnState) :
    (e ≠ UvcStreamEvent.deviceDisconnected → stream_callback e s = s) ∧
      (e = UvcStreamEvent.deviceDisconnected →
        (stream_callback e s).dev_connected = false ∧
          (stream_callback e s).stream_open = false) := by
  cases e <;> simp [stream_callback]

/-- Witness for C6: a transfer error leaves a connected, open state exactly
as it was, and a disconnect clears the connected flag. -/
theorem stream_event_state_effects_witness :
    stream_callback (UvcStreamEvent.transferError 3) ⟨true, true⟩ = ⟨true, true⟩ ∧
      (stream_callback UvcStreamEvent.deviceDisconnected ⟨true, true⟩).dev_connected
        = false :=
  ⟨(stream_event_state_effects (UvcStreamEvent.transferError 3) ⟨true, true⟩).1
      (by decide),
    ((stream_event_state_effects UvcStreamEvent.deviceDisconnected ⟨true, true⟩).2
      rfl).1⟩

/-- Claim C7: for every frame whose length fits the device's 32-bit signed
`%d` range, the bytes `stream_handler` emits for the frame are exactly the
spec's part header with the decimal length, the frame bytes, and the
trailing separator, with nothing else interleaved. -/
theorem mjpeg_part_framing (data : List Nat) (h : data.length < 2 ^ 31) :
    stream_handler_frame_bytes data = spec_mjpeg_part_bytes data := by
  have hfit : (mjpeg_part_header_string data.length).data.length ≤ 127 :=
    mjpeg_header_fits data.length h
  have htake : ((mjpeg_part_header_string data.length).data.take 127).take
      (mjpeg_part_header_string data.length).data.length
      = (mjpeg_part_header_string data.length).data := by
    rw [List.take_of_length_le hfit, List.take_length]
  have hsep : List.map Char.toNat "\r\n".data = [13, 10] := by decide
  simp only [stream_handler_frame_bytes, snprintf_frame_header]
  rw [htake]
  simp only [spec_mjpeg_part_bytes, strBytes, hsep, mjpeg_part_header_string]

/-- Witness for C7: the two-byte frame `[255, 216]` satisfies the length
bound and is framed exactly as the spec prescribes. -/
theorem mjpeg_part_framing_witness :
    ([255, 216] : List Nat).length < 2 ^ 31 ∧
      stream_handler_frame_bytes [255, 216] = spec_mjpeg_part_bytes [255, 216] :=
  ⟨by norm_num, mjpeg_part_framing [255, 216] (by norm_num)⟩

/-- Claim C8: the claim fails on the code — when the header send fails, or
when the frame-data send fails, `stream_handler` breaks out of its loop
without calling `uvc_host_frame_return` on the frame it still holds; only the
all-sends-succeed path releases the frame. -/
theorem no_release_on_write_failure :
    stream_handler_frame_step false true = (false, true) ∧
      stream_handler_frame_step true false = (false, true) ∧
      stream_handler_frame_step true true = (true, false) := by
  decide

/-- Claim C9: registering a NULL callback returns `ESP_ERR_INVALID_ARG` and
leaves both registration variables untouched; registering a non-NULL callback
returns `ESP_OK` and replaces both the callback and its context. -/
theorem register_frame_callback_contract (frame_cb user_ctx : Option Nat)
    (s : CallbackState) :
    (frame_cb = none →
        app_uvc_register_frame_callback frame_cb user_ctx s
          = (EspErr.espErrInvalidArg, s)) ∧
      (∀ cb, frame_cb = some cb →
        app_uvc_register_frame_callback frame_cb user_ctx s
          = (EspErr.espOk, ⟨some cb, user_ctx⟩)) := by
  constructor
  · intro h
    subst h
    rfl
  · intro cb h
    subst h
    rfl

/-- Witness for C9: a NULL registration leaves an existing registration in
place, and a non-NULL registration replaces callback and context. -/
theorem register_frame_callback_contract_witness :
    app_uvc_register_frame_callback none (some 9) ⟨some 1, some 2⟩
        = (EspErr.espErrInvalidArg, ⟨some 1, some 2⟩) ∧
      app_uvc_register_frame_callback (some 7) none ⟨some 1, some 2⟩
        = (EspErr.espOk, ⟨some 7, none⟩) :=
  ⟨(register_frame_callback_contract none (some 9) ⟨some 1, some 2⟩).1 rfl,
    (register_frame_callback_contract (some 7) none ⟨some 1, some 2⟩).2 7 rfl⟩
